import Mathlib

/-!
# LeafWise-API — verification of the identification pipeline

Shallow embedding, in Lean 4, of the identification pipeline of the
LeafWise API: the Plant.id and Gemini provider gateways, the AI Router
fallback chain, the usage ledger writes, the species resolver, and the
response shaping of `POST /api/v1/identify`.

The embedded definitions mirror, function by function, the TypeScript
sources:

* `src/modules/identification/identification.service.ts`
* `src/providers/ai/ai-router.service.ts`
* `src/providers/ai/plant-id.provider.ts`
* the Gemini provider (`gemini.provider.ts`)

JavaScript-specific behaviour is made explicit: `undefined` is `Option.none`,
string truthiness (`s || d` treating `""` as falsy) is `jsOrStr`, and
`String.prototype.split` / `includes` / `startsWith` / `trim` are modelled
by structurally recursive functions over the character list of the string,
so that every definition evaluates by kernel reduction.  Monetary and
confidence values are `ℚ`.
-/

namespace LeafWise

/-! ## JavaScript string primitives -/

/-- JS `String.prototype.split` with a single-character separator, on the
character list: `"a,b"` ↦ `[['a'],['b']]`, `""` ↦ `[[]]`. -/
def splitOnCharList (sep : Char) : List Char → List (List Char)
  | [] => [[]]
  | c :: cs =>
    let rest := splitOnCharList sep cs
    if c = sep then [] :: rest
    else
      match rest with
      | [] => [[c]]
      | t :: ts => (c :: t) :: ts

/-- JS `s.split(sep)` for a one-character separator string. -/
def jsSplitChar (s : String) (sep : Char) : List String :=
  (splitOnCharList sep s.data).map String.mk

/-- Split a character list at every character satisfying `p` (used for the
whitespace-run collapse `replace(/\s+/g, ' ')`). -/
def splitOnPredList (p : Char → Bool) : List Char → List (List Char)
  | [] => [[]]
  | c :: cs =>
    let rest := splitOnPredList p cs
    if p c then [] :: rest
    else
      match rest with
      | [] => [[c]]
      | t :: ts => (c :: t) :: ts

/-- JS `s.startsWith(pre)`. -/
def jsStartsWith (s pre : String) : Bool :=
  pre.data.isPrefixOf s.data

/-- Substring search over character lists (JS `includes`). -/
def listContainsSub (pat : List Char) : List Char → Bool
  | [] => pat.isEmpty
  | c :: cs => pat.isPrefixOf (c :: cs) || listContainsSub pat cs

/-- JS `s.includes(pat)`. -/
def jsIncludes (s pat : String) : Bool :=
  listContainsSub pat.data s.data

/-- JS `String.prototype.trim`: drop whitespace from both ends. -/
def jsTrimList (l : List Char) : List Char :=
  (((l.dropWhile Char.isWhitespace).reverse).dropWhile Char.isWhitespace).reverse

/-- JS string truthiness fallback `v || d`: `undefined` (`none`) and the
empty string are falsy, everything else passes through. -/
def jsOrStr (v : Option String) (d : String) : String :=
  match v with
  | none => d
  | some s => if s = "" then d else s

/-- JS `charAt(0).toUpperCase() + slice(1)`; on the empty string both parts
are empty. -/
def capitalizeFirst (s : String) : String :=
  match s.data with
  | [] => ""
  | c :: cs => String.mk (c.toUpper :: cs)

/-! ## Base64 normalization

`normalizeBase64` appears verbatim both in `identification.service.ts`
(lines 132–137) and in `plant-id.provider.ts` (lines 193–199):

```ts
if (imageBase64.startsWith('data:')) \x7b return imageBase64.split(',')[1]; \x7d
return imageBase64;
```

`split(',')[1]` is `undefined` when the string contains no comma after the
prefix, so the function's JS result is a string *or* `undefined`; we return
`Option String` with `none` for `undefined`. -/

def normalizeBase64 (imageBase64 : String) : Option String :=
  if jsStartsWith imageBase64 "data:" then (jsSplitChar imageBase64 ',').get? 1
  else some imageBase64

/-! ## Scientific-name normalization and genus extraction
(`identification.service.ts` lines 204–222) -/

/-- JS `name.toLowerCase().trim().replace(/\s+/g, ' ')`: lowercase, trim,
collapse internal whitespace runs to single spaces. -/
def normalizeScientificName (name : String) : String :=
  String.mk
    (List.intercalate [' ']
      ((splitOnPredList (fun c => c.isWhitespace)
          (jsTrimList (name.data.map Char.toLower))).filter (fun t => t ≠ [])))

/-- JS `scientificName.split(' ')[0]`, first letter upper-cased
(`extractGenus`, lines 218–222). -/
def extractGenus (scientificName : String) : String :=
  capitalizeFirst ((jsSplitChar scientificName ' ').headD "")

end LeafWise

namespace LeafWise

/-! ## Claim theorems (C9) -/

/-- Sanity: normalization strips a well-formed data-URI prefix. -/
example : normalizeBase64 "data:image/jpeg;base64,QUJD" = some "QUJD" := by decide

example : normalizeBase64 "QUJD" = some "QUJD" := by decide

example : normalizeScientificName "  Monstera   DELICIOSA " = "monstera deliciosa" := by
  decide

example : extractGenus "monstera deliciosa" = "Monstera" := by decide

/-- **C9, counterexample.** The claim "for every input string `x`,
`normalize (normalize x) = normalize x`" is false on the code: on
`"data:a,data:b,c"` the first normalization returns `"data:b"` (the piece
after the first comma), and normalizing `"data:b"` yields JS `undefined`
(`none`), not `"data:b"`. -/
theorem c9_normalizeBase64_not_idempotent :
    normalizeBase64 "data:a,data:b,c" = some "data:b" ∧
    normalizeBase64 "data:b" = none := by
  constructor <;> decide

/-- **C9, amended.** Base64 normalization is idempotent at every input whose
normalization does not itself start with `"data:"` (in particular at every
well-formed data URI whose payload is plain base64): any string without the
`"data:"` prefix is a fixed point, and whenever `normalizeBase64 x = some y`
with `y` not starting with `"data:"`, a second normalization changes
nothing. -/
theorem c9_normalizeBase64_idempotent_amended :
    (∀ x : String, jsStartsWith x "data:" = false → normalizeBase64 x = some x) ∧
    (∀ x y : String, normalizeBase64 x = some y → jsStartsWith y "data:" = false →
      (normalizeBase64 x).bind normalizeBase64 = normalizeBase64 x) := by
  refine ⟨fun x hx => by simp [normalizeBase64, hx], fun x y hx hy => ?_⟩
  rw [hx]
  show normalizeBase64 y = some y
  simp [normalizeBase64, hy]

/-- **C9, witness** for the amended theorem at
`x = "data:image/png;base64,Zm9v"`, `y = "Zm9v"`. -/
theorem c9_normalizeBase64_idempotent_amended_w :
    (normalizeBase64 "data:image/png;base64,Zm9v").bind normalizeBase64 =
      normalizeBase64 "data:image/png;base64,Zm9v" :=
  c9_normalizeBase64_idempotent_amended.2 "data:image/png;base64,Zm9v" "Zm9v"
    (by decide) (by decide)

end LeafWise

namespace LeafWise

/-! ## Provider gateway errors and their classification

`PlantIdError` (`plant-id.provider.ts` lines 89–99) and `GeminiError`
(`gemini.provider.ts` lines 29–39) have the same runtime shape
`(message, code, isRetryable, cause?)`; we share one structure and keep the
class name in a field. -/

structure ProviderError where
  name : String
  message : String
  code : String
  isRetryable : Bool
deriving Repr, DecidableEq

/-- The shape of a raw JavaScript/axios error as inspected by `wrapError`:
an optional HTTP status (`error.response.status`), an optional transport
error code (`error.code`, e.g. `"ECONNABORTED"`, `"ENOTFOUND"`), and the
resolved message (`error.response.data.message || error.message ||
'Unknown error'`). -/
structure JsError where
  status : Option Nat
  code : Option String
  message : String
deriving Repr, DecidableEq

/-- JS `status >= 500` where `status` may be `undefined` (then the
comparison is false). -/
def statusGe500 : Option Nat → Bool
  | some s => decide (500 ≤ s)
  | none => false

/-- `PlantIdProvider.wrapError` (`plant-id.provider.ts` lines 236–283):
401 → `AUTH_ERROR` (terminal); 429 → `RATE_LIMIT` (retryable);
status ≥ 500 → `SERVICE_ERROR` (retryable); transport code `ECONNABORTED`
or `ETIMEDOUT` → `TIMEOUT` (retryable); everything else — including 403,
connection and DNS failures — → `UNKNOWN_ERROR` (terminal). -/
def wrapPlantIdError (e : JsError) : ProviderError :=
  if e.status = some 401 then
    ⟨"PlantIdError", "Invalid Plant.id API key", "AUTH_ERROR", false⟩
  else if e.status = some 429 then
    ⟨"PlantIdError", "Plant.id rate limit exceeded", "RATE_LIMIT", true⟩
  else if statusGe500 e.status then
    ⟨"PlantIdError", "Plant.id service unavailable", "SERVICE_ERROR", true⟩
  else if e.code = some "ECONNABORTED" ∨ e.code = some "ETIMEDOUT" then
    ⟨"PlantIdError", "Plant.id request timeout", "TIMEOUT", true⟩
  else
    ⟨"PlantIdError", e.message, "UNKNOWN_ERROR", false⟩

/-- `GeminiProvider.wrapError` (`gemini.provider.ts` lines 172–185):
classification is purely on the message text; the fall-through
`UNKNOWN_ERROR` is *retryable* here. -/
def wrapGeminiError (e : JsError) : ProviderError :=
  if jsIncludes e.message "quota" ∨ jsIncludes e.message "rate" then
    ⟨"GeminiError", "Gemini rate limit exceeded", "RATE_LIMIT", true⟩
  else if jsIncludes e.message "API key" ∨ jsIncludes e.message "authentication" then
    ⟨"GeminiError", "Invalid Gemini API key", "AUTH_ERROR", false⟩
  else
    ⟨"GeminiError", e.message, "UNKNOWN_ERROR", true⟩

/-! ## Timeout/retry harness of the Plant.id gateway

`callApiWithRetry` (`plant-id.provider.ts` lines 157–191) pipes the HTTP
call through rxjs `retry(\x7b count: 3, delay: retryCount =>
timer(2^(retryCount-1) * 1000) \x7d)`: the initial subscription plus up to
three resubscriptions, each preceded by the computed delay, with *no*
predicate on the error.  We model the sequence of per-attempt outcomes as a
function `Nat → Except ε α` and record the attempts made and the delays
slept. -/

/-- Delay (ms) computed by the rxjs `delay` callback for retry number
`retryCount` (1-based): `2^(retryCount-1) * 1000`, i.e. 1 s, 2 s, 4 s. -/
def plantIdRetryDelay (retryCount : Nat) : Nat :=
  2 ^ (retryCount - 1) * 1000

structure RetryTrace (ε α : Type) where
  result : Except ε α
  numAttempts : Nat
  delays : List Nat
deriving Repr

/-- One run of rxjs `retry` with `count` retries remaining: attempt `i`
(0-based); on failure with retries left, sleep `delayFn (i+1)` and
resubscribe. -/
def rxRetryGo (delayFn : Nat → Nat) (outcomes : Nat → Except ε α) :
    Nat → Nat → List Nat → RetryTrace ε α
  | i, 0, acc =>
    match outcomes i with
    | .ok a => ⟨.ok a, i + 1, acc⟩
    | .error e => ⟨.error e, i + 1, acc⟩
  | i, retriesLeft + 1, acc =>
    match outcomes i with
    | .ok a => ⟨.ok a, i + 1, acc⟩
    | .error _ =>
      rxRetryGo delayFn outcomes (i + 1) retriesLeft (acc ++ [delayFn (i + 1)])

/-- `callApiWithRetry`: initial attempt plus up to 3 retries. -/
def callApiWithRetry (outcomes : Nat → Except ε α) : RetryTrace ε α :=
  rxRetryGo plantIdRetryDelay outcomes 0 3 []

/-- `GeminiProvider.identifyPlant` (`gemini.provider.ts` lines 75–126)
performs a single `try/catch` around the SDK call: one attempt, no retry,
no sleep. -/
def geminiCallTrace (outcome : Except ε α) : RetryTrace ε α :=
  ⟨outcome, 1, []⟩

/-! ## Claim theorems (C6): gateway error classification -/

/-- **C6, counterexample.** The classification claimed ("HTTP 401/403 →
non-retryable AUTH; connection errors and DNS failures → retryable
SERVICE_ERROR") fails on the code at two concrete errors: an HTTP 403 is
wrapped as terminal `UNKNOWN_ERROR` (only 401 maps to `AUTH_ERROR`), and a
DNS failure (`ENOTFOUND`, no HTTP status) is wrapped as terminal
`UNKNOWN_ERROR`, not retryable `SERVICE_ERROR`. -/
theorem c6_wrapError_counterexample :
    wrapPlantIdError ⟨some 403, none, "Request failed with status code 403"⟩ =
      ⟨"PlantIdError", "Request failed with status code 403", "UNKNOWN_ERROR", false⟩ ∧
    (wrapPlantIdError ⟨some 403, none, "Request failed with status code 403"⟩).code ≠
      "AUTH_ERROR" ∧
    wrapPlantIdError ⟨none, some "ENOTFOUND", "getaddrinfo ENOTFOUND api.plant.id"⟩ =
      ⟨"PlantIdError", "getaddrinfo ENOTFOUND api.plant.id", "UNKNOWN_ERROR", false⟩ := by
  refine ⟨by decide, by decide, by decide⟩

/-- **C6, amended.** The actual classification: HTTP 401 → terminal
`AUTH_ERROR`; HTTP 403 (without a transport timeout code) → terminal
`UNKNOWN_ERROR`; HTTP 429 → retryable `RATE_LIMIT`; HTTP ≥ 500 → retryable
`SERVICE_ERROR`; transport code `ECONNABORTED`/`ETIMEDOUT` without an HTTP
status → retryable `TIMEOUT`; any other status-less error (connection
refusals, DNS failures) → terminal `UNKNOWN_ERROR`.  The Gemini gateway
classifies on the message text alone: `"quota"`/`"rate"` → retryable
`RATE_LIMIT`; otherwise `"API key"`/`"authentication"` → terminal
`AUTH_ERROR`; otherwise *retryable* `UNKNOWN_ERROR`. -/
theorem c6_wrapError_amended (e : JsError) :
    (e.status = some 401 →
      wrapPlantIdError e = ⟨"PlantIdError", "Invalid Plant.id API key", "AUTH_ERROR", false⟩) ∧
    (e.status = some 403 →
      ¬(e.code = some "ECONNABORTED" ∨ e.code = some "ETIMEDOUT") →
      wrapPlantIdError e = ⟨"PlantIdError", e.message, "UNKNOWN_ERROR", false⟩) ∧
    (e.status = some 429 →
      wrapPlantIdError e =
        ⟨"PlantIdError", "Plant.id rate limit exceeded", "RATE_LIMIT", true⟩) ∧
    (∀ s, e.status = some s → 500 ≤ s →
      wrapPlantIdError e =
        ⟨"PlantIdError", "Plant.id service unavailable", "SERVICE_ERROR", true⟩) ∧
    (e.status = none → (e.code = some "ECONNABORTED" ∨ e.code = some "ETIMEDOUT") →
      wrapPlantIdError e = ⟨"PlantIdError", "Plant.id request timeout", "TIMEOUT", true⟩) ∧
    (e.status = none → ¬(e.code = some "ECONNABORTED" ∨ e.code = some "ETIMEDOUT") →
      wrapPlantIdError e = ⟨"PlantIdError", e.message, "UNKNOWN_ERROR", false⟩) ∧
    ((jsIncludes e.message "quota" = true ∨ jsIncludes e.message "rate" = true) →
      wrapGeminiError e = ⟨"GeminiError", "Gemini rate limit exceeded", "RATE_LIMIT", true⟩) ∧
    (¬(jsIncludes e.message "quota" = true ∨ jsIncludes e.message "rate" = true) →
      (jsIncludes e.message "API key" = true ∨ jsIncludes e.message "authentication" = true) →
      wrapGeminiError e = ⟨"GeminiError", "Invalid Gemini API key", "AUTH_ERROR", false⟩) ∧
    (¬(jsIncludes e.message "quota" = true ∨ jsIncludes e.message "rate" = true) →
      ¬(jsIncludes e.message "API key" = true ∨ jsIncludes e.message "authentication" = true) →
      wrapGeminiError e = ⟨"GeminiError", e.message, "UNKNOWN_ERROR", true⟩) := by
  refine ⟨fun h => by simp [wrapPlantIdError, h],
    fun h hc => ?_, fun h => by simp [wrapPlantIdError, h, statusGe500],
    fun s h hs => ?_, fun h hc => ?_, fun h hc => ?_,
    fun h => ?_, fun h1 h2 => ?_, fun h1 h2 => ?_⟩
  · simp [wrapPlantIdError, h, statusGe500, hc]
  · have h429 : s ≠ 429 := by omega
    have h401 : s ≠ 401 := by omega
    simp [wrapPlantIdError, h, statusGe500, hs, h429, h401]
  · simp [wrapPlantIdError, h, statusGe500, hc]
  · simp [wrapPlantIdError, h, statusGe500, hc]
  · simp only [wrapGeminiError]
    rw [if_pos]
    rcases h with h | h <;> simp [h]
  · simp only [wrapGeminiError]
    rw [if_neg, if_pos]
    · rcases h2 with h2 | h2 <;> simp [h2]
    · simpa using h1
  · simp only [wrapGeminiError]
    rw [if_neg, if_neg]
    · simpa using h2
    · simpa using h1

/-- **C6, witness** for the amended theorem: a 401 from Plant.id and a
quota message from Gemini, classified per the amended claim. -/
theorem c6_wrapError_amended_w :
    wrapPlantIdError ⟨some 401, none, "Unauthorized"⟩ =
      ⟨"PlantIdError", "Invalid Plant.id API key", "AUTH_ERROR", false⟩ ∧
    wrapGeminiError ⟨none, none, "You exceeded your current quota"⟩ =
      ⟨"GeminiError", "Gemini rate limit exceeded", "RATE_LIMIT", true⟩ :=
  ⟨(c6_wrapError_amended ⟨some 401, none, "Unauthorized"⟩).1 rfl,
   (c6_wrapError_amended ⟨none, none, "You exceeded your current quota"⟩).2.2.2.2.2.2.1
     (Or.inl (by decide))⟩

/-! ## Claim theorems (C5): the retry harness -/

/-- **C5, counterexample.** With every HTTP call failing with a 401
(classified as *non-retryable* `AUTH_ERROR` by `wrapError`),
`callApiWithRetry` makes **4** attempts (1 initial + 3 rxjs retries),
sleeping 1 s, 2 s and 4 s between them: the claimed attempt cap of 3 is
exceeded and a non-retryable AUTH failure *is* retried, because the rxjs
`retry` operator carries no retryable-predicate and classification happens
only after the retry loop. -/
theorem c5_retry_counterexample :
    (callApiWithRetry (α := Unit)
        (fun _ => .error (⟨some 401, none, "Request failed with status code 401"⟩ :
          JsError))).numAttempts = 4 ∧
    ¬((callApiWithRetry (α := Unit)
        (fun _ => .error (⟨some 401, none, "Request failed with status code 401"⟩ :
          JsError))).numAttempts ≤ 3) ∧
    (callApiWithRetry (α := Unit)
        (fun _ => .error (⟨some 401, none, "Request failed with status code 401"⟩ :
          JsError))).delays = [1000, 2000, 4000] ∧
    (wrapPlantIdError ⟨some 401, none, "Request failed with status code 401"⟩).code =
      "AUTH_ERROR" ∧
    (wrapPlantIdError ⟨some 401, none, "Request failed with status code 401"⟩).isRetryable =
      false := by
  refine ⟨rfl, by decide, rfl, by decide, by decide⟩

/-- **C5, amended.** The Plant.id harness makes at most 4 attempts
(1 initial + 3 retries); the delay before attempt `k` (1-indexed, `k ≥ 2`)
is exactly `baseDelay · 2^(k-2)` with `baseDelay = 1 s` — deterministic
(no jitter), and never above the 10 s cap since it tops out at 4 s;
retries are attempted regardless of the error's classification (the
retryable/terminal distinction is applied only after the loop); the Gemini
gateway makes exactly one attempt with no sleeps. -/
theorem c5_retry_amended (ε α : Type) (outcomes : Nat → Except ε α)
    (outcome : Except ε α) :
    (callApiWithRetry outcomes).numAttempts ≤ 4 ∧
    (callApiWithRetry outcomes).delays =
      (List.range ((callApiWithRetry outcomes).numAttempts - 1)).map
        (fun j => plantIdRetryDelay (j + 1)) ∧
    (callApiWithRetry outcomes).delays.all (fun d => decide (d ≤ 10000)) = true ∧
    (geminiCallTrace outcome).numAttempts = 1 ∧
    (geminiCallTrace outcome).delays = [] := by
  refine ?_
  cases h0 : outcomes 0 with
  | ok a => simp [callApiWithRetry, rxRetryGo, h0, geminiCallTrace]
  | error e0 =>
    cases h1 : outcomes 1 with
    | ok a =>
      simp [callApiWithRetry, rxRetryGo, h0, h1, geminiCallTrace, plantIdRetryDelay,
        List.range_succ]
    | error e1 =>
      cases h2 : outcomes 2 with
      | ok a =>
        simp [callApiWithRetry, rxRetryGo, h0, h1, h2, geminiCallTrace,
          plantIdRetryDelay, List.range_succ]
      | error e2 =>
        cases h3 : outcomes 3 with
        | ok a =>
          simp [callApiWithRetry, rxRetryGo, h0, h1, h2, h3, geminiCallTrace,
            plantIdRetryDelay, List.range_succ]
        | error e3 =>
          simp [callApiWithRetry, rxRetryGo, h0, h1, h2, h3, geminiCallTrace,
            plantIdRetryDelay, List.range_succ]

end LeafWise

namespace LeafWise

/-! ## Result shapes (`ai-router.service.ts` lines 19–37,
`plant-id.provider.ts` lines 65–83, `gemini.provider.ts` lines 8–23) -/

structure SimilarSpeciesEntry where
  scientificName : String
  commonName : String
  confidence : ℚ
  imageUrl : String
deriving Repr, DecidableEq

structure PlantIdSpecies where
  id : String
  scientificName : String
  commonNames : List String
  family : String
  genus : String
  confidence : ℚ
deriving Repr, DecidableEq

structure PlantIdIdentificationResult where
  species : PlantIdSpecies
  isPlant : Bool
  isPlantProbability : ℚ
  similarSpecies : List SimilarSpeciesEntry
deriving Repr, DecidableEq

structure GeminiSpecies where
  scientificName : String
  commonNames : List String
  family : String
  genus : String
  confidence : ℚ
deriving Repr, DecidableEq

structure GeminiIdentificationResult where
  species : GeminiSpecies
  similarSpecies : List SimilarSpeciesEntry
  isFallback : Bool
deriving Repr, DecidableEq

structure UnifiedSpecies where
  scientificName : String
  commonNames : List String
  family : String
  genus : String
  confidence : ℚ
deriving Repr, DecidableEq

structure UnifiedIdentificationResult where
  species : UnifiedSpecies
  similarSpecies : List SimilarSpeciesEntry
  isFallback : Bool
  provider : String
deriving Repr, DecidableEq

/-- `AIRouterError` (`ai-router.service.ts` lines 39–48). -/
structure AIRouterError where
  message : String
  attemptedProviders : List String
  cause : Option ProviderError
deriving Repr, DecidableEq

/-- `UsageLogEntry` row as written by `logUsage` (`ai-router.service.ts`
lines 178–203); `createdAt` is supplied by the database at insert time. -/
structure UsageLogEntry where
  userId : String
  action : String
  provider : String
  latencyMs : Nat
  success : Bool
  errorCode : Option String
  cost : ℚ
  endpoint : String
  createdAt : Nat
deriving Repr, DecidableEq

/-! ## The AI Router (`ai-router.service.ts` lines 54–225) -/

/-- The ordered provider chain for the `identification` task. -/
def identificationChain : List String := ["plant-id", "gemini"]

/-- `mapPlantIdResult` (lines 144–159). -/
def mapPlantIdResult (result : PlantIdIdentificationResult) :
    UnifiedIdentificationResult :=
  { species :=
      { scientificName := result.species.scientificName
        commonNames := result.species.commonNames
        family := result.species.family
        genus := result.species.genus
        confidence := result.species.confidence }
    similarSpecies := result.similarSpecies
    isFallback := false
    provider := "plant-id" }

/-- `mapGeminiResult` (lines 161–176). -/
def mapGeminiResult (result : GeminiIdentificationResult) :
    UnifiedIdentificationResult :=
  { species :=
      { scientificName := result.species.scientificName
        commonNames := result.species.commonNames
        family := result.species.family
        genus := result.species.genus
        confidence := result.species.confidence }
    similarSpecies := result.similarSpecies
    isFallback := true
    provider := "gemini" }

/-- The environment a single `identifyPlant` router call runs in: the
outcome each provider would produce if invoked, the measured latencies,
whether each ledger insert would succeed, and the insert timestamp. -/
structure RouterEnv where
  plantIdOutcome : Except ProviderError PlantIdIdentificationResult
  geminiOutcome : Except ProviderError GeminiIdentificationResult
  plantIdLatencyMs : Nat
  geminiLatencyMs : Nat
  plantIdLogWriteOk : Bool
  geminiLogWriteOk : Bool
  now : Nat

/-- `logUsage` (lines 178–203): one `usageLog.create` with a flat cost of
$0.03 for plant-id and $0.003 otherwise; a failing insert is caught and
reported to the logger (`diagnostics`) without propagating. -/
def logUsage (userId action provider : String) (latencyMs : Nat) (success : Bool)
    (errorCode : Option String) (now : Nat) (writeOk : Bool) :
    List UsageLogEntry × List String :=
  if writeOk then
    ([{ userId := userId
        action := action
        provider := provider
        latencyMs := latencyMs
        success := success
        errorCode := errorCode
        cost := if provider = "plant-id" then 3/100 else 3/1000
        endpoint := "/api/v1/identify"
        createdAt := now }], [])
  else
    ([], ["Failed to log usage"])

/-- Everything observable about one `identifyPlant` call: its
result-or-error, the ledger rows inserted, the diagnostics emitted by
failed ledger writes, and the providers attempted in order. -/
structure RouterOut where
  result : Except AIRouterError UnifiedIdentificationResult
  ledger : List UsageLogEntry
  diagnostics : List String
  attemptedProviders : List String
deriving Repr

/-- `AIRouterService.identifyPlant` (lines 65–142): try plant-id, log the
attempt, return the mapped result on success; otherwise try gemini the same
way; if both fail, throw `AIRouterError` with the ordered attempted
provider names and the last (gemini) error as cause. -/
def identifyPlant (userId : String) (env : RouterEnv) : RouterOut :=
  match env.plantIdOutcome with
  | .ok result =>
    let logged :=
      logUsage userId "identification" "plant-id" env.plantIdLatencyMs true none
        env.now env.plantIdLogWriteOk
    ⟨.ok (mapPlantIdResult result), logged.1, logged.2, ["plant-id"]⟩
  | .error e1 =>
    let logged1 :=
      logUsage userId "identification" "plant-id" env.plantIdLatencyMs false
        (some e1.code) env.now env.plantIdLogWriteOk
    match env.geminiOutcome with
    | .ok result =>
      let logged2 :=
        logUsage userId "identification" "gemini" env.geminiLatencyMs true none
          env.now env.geminiLogWriteOk
      ⟨.ok (mapGeminiResult result), logged1.1 ++ logged2.1, logged1.2 ++ logged2.2,
        ["plant-id", "gemini"]⟩
    | .error e2 =>
      let logged2 :=
        logUsage userId "identification" "gemini" env.geminiLatencyMs false
          (some e2.code) env.now env.geminiLogWriteOk
      ⟨.error ⟨"Plant identification failed - all providers unavailable",
          ["plant-id", "gemini"], some e2⟩,
        logged1.1 ++ logged2.1, logged1.2 ++ logged2.2, ["plant-id", "gemini"]⟩

/-- The `ServiceUnavailableException` body thrown by the pipeline's
`runIdentification` (`identification.service.ts` lines 139–155). -/
structure ServiceUnavailableBody where
  code : String
  message : String
  attemptedProviders : List String
deriving Repr, DecidableEq

/-- `IdentificationService.runIdentification` (lines 139–155): forward the
router's result; translate `AIRouterError` — and only `AIRouterError` —
into a 503 `ServiceUnavailable` with code `AI_UNAVAILABLE` and the
attempted providers. -/
def runIdentification (userId : String) (env : RouterEnv) :
    Except ServiceUnavailableBody UnifiedIdentificationResult :=
  match (identifyPlant userId env).result with
  | .ok r => .ok r
  | .error e =>
    .error ⟨"AI_UNAVAILABLE",
      "Plant identification service is temporarily unavailable",
      e.attemptedProviders⟩

/-- `Except.isOk` as a plain boolean discriminator. -/
def exceptOk : Except ε α → Bool
  | .ok _ => true
  | .error _ => false

/-! ## Claim theorems (C2): `ServiceUnavailable` iff `AIRouterError` -/

/-- **C2.** The pipeline emits `ServiceUnavailable` (code `AI_UNAVAILABLE`,
attempted providers in chain order) exactly when the router emits
`AIRouterError`; the router errors exactly when both providers in the
chain failed; the router error carries the ordered attempted provider
names and, as cause, the last (gemini) provider error; otherwise the
pipeline returns a result. -/
theorem c2_service_unavailable_iff_router_error (userId : String) (env : RouterEnv) :
    exceptOk (runIdentification userId env) = exceptOk (identifyPlant userId env).result ∧
    (exceptOk (identifyPlant userId env).result = false ↔
      exceptOk env.plantIdOutcome = false ∧ exceptOk env.geminiOutcome = false) ∧
    (∀ e, (identifyPlant userId env).result = .error e →
      e.attemptedProviders = identificationChain ∧
      ∃ e2, env.geminiOutcome = .error e2 ∧ e.cause = some e2) ∧
    (∀ b, runIdentification userId env = .error b →
      b.code = "AI_UNAVAILABLE" ∧ b.attemptedProviders = identificationChain) ∧
    (exceptOk (identifyPlant userId env).result = true →
      ∃ r, runIdentification userId env = .ok r) := by
  obtain ⟨po, go, pl, gl, pw, gw, now⟩ := env
  cases po <;> cases go <;>
    simp [identifyPlant, runIdentification, exceptOk, identificationChain]

/-- **C2, witness**: with plant-id failing on a 503 and gemini failing on
an unclassified SDK error, the pipeline's error is `AI_UNAVAILABLE` with
`attemptedProviders = ["plant-id", "gemini"]`. -/
theorem c2_service_unavailable_iff_router_error_w :
    (⟨"AI_UNAVAILABLE", "Plant identification service is temporarily unavailable",
        ["plant-id", "gemini"]⟩ : ServiceUnavailableBody).code = "AI_UNAVAILABLE" ∧
    (⟨"AI_UNAVAILABLE", "Plant identification service is temporarily unavailable",
        ["plant-id", "gemini"]⟩ : ServiceUnavailableBody).attemptedProviders =
      identificationChain :=
  (c2_service_unavailable_iff_router_error "user-1"
    ⟨.error (wrapPlantIdError ⟨some 503, none, "Service Unavailable"⟩),
     .error (wrapGeminiError ⟨none, none, "Internal error"⟩),
     120, 340, true, true, 1700000000000⟩).2.2.2.1
    ⟨"AI_UNAVAILABLE", "Plant identification service is temporarily unavailable",
      ["plant-id", "gemini"]⟩ rfl

/-! ## Claim theorems (C3): fallback flag -/

/-- **C3.** Every successful router result is annotated with the provider
that actually produced it, and `isFallback = true` exactly when that
provider is not the first of the identification chain. -/
theorem c3_isFallback_iff_not_first (userId : String) (env : RouterEnv)
    (r : UnifiedIdentificationResult)
    (h : (identifyPlant userId env).result = .ok r) :
    (r.isFallback = true ↔ some r.provider ≠ identificationChain.head?) ∧
    r.provider = (match env.plantIdOutcome with
      | .ok _ => "plant-id"
      | .error _ => "gemini") := by
  obtain ⟨po, go, pl, gl, pw, gw, now⟩ := env
  cases po <;> cases go <;>
    simp_all [identifyPlant, mapPlantIdResult, mapGeminiResult, identificationChain] <;>
    subst h <;> simp

/-- **C3, witness**: a successful gemini fallback result carries
`provider = "gemini"` and `isFallback = true`. -/
theorem c3_isFallback_iff_not_first_w :
    ((mapGeminiResult ⟨⟨"Monstera deliciosa", ["Monstera"], "Araceae", "Monstera", 55/100⟩,
        [], true⟩).isFallback = true ↔
      some (mapGeminiResult ⟨⟨"Monstera deliciosa", ["Monstera"], "Araceae", "Monstera",
        55/100⟩, [], true⟩).provider ≠ identificationChain.head?) ∧
    (mapGeminiResult ⟨⟨"Monstera deliciosa", ["Monstera"], "Araceae", "Monstera", 55/100⟩,
        [], true⟩).provider =
      (match (Except.error (wrapPlantIdError ⟨some 503, none, "Service Unavailable"⟩) :
          Except ProviderError PlantIdIdentificationResult) with
        | .ok _ => "plant-id"
        | .error _ => "gemini") :=
  c3_isFallback_iff_not_first "user-1"
    ⟨.error (wrapPlantIdError ⟨some 503, none, "Service Unavailable"⟩),
     .ok ⟨⟨"Monstera deliciosa", ["Monstera"], "Araceae", "Monstera", 55/100⟩, [], true⟩,
     120, 340, true, true, 1700000000000⟩ _ rfl

/-! ## Claim theorems (C4): the usage ledger -/

/-- What §4.9 calls a provider attempt, as the ledger must record it. -/
structure AttemptRecord where
  provider : String
  success : Bool
  latencyMs : Nat
  errorCode : Option String
  writeOk : Bool
deriving Repr, DecidableEq

/-- The provider attempts an `identifyPlant` call makes, in chain order:
plant-id always, gemini exactly when plant-id failed. -/
def attemptsOf (env : RouterEnv) : List AttemptRecord :=
  match env.plantIdOutcome with
  | .ok _ => [⟨"plant-id", true, env.plantIdLatencyMs, none, env.plantIdLogWriteOk⟩]
  | .error e1 =>
    ⟨"plant-id", false, env.plantIdLatencyMs, some e1.code, env.plantIdLogWriteOk⟩ ::
      (match env.geminiOutcome with
        | .ok _ => [⟨"gemini", true, env.geminiLatencyMs, none, env.geminiLogWriteOk⟩]
        | .error e2 =>
          [⟨"gemini", false, env.geminiLatencyMs, some e2.code, env.geminiLogWriteOk⟩])

/-- The ledger row recording one attempt. -/
def rowOf (userId : String) (now : Nat) (a : AttemptRecord) : UsageLogEntry :=
  { userId := userId
    action := "identification"
    provider := a.provider
    latencyMs := a.latencyMs
    success := a.success
    errorCode := a.errorCode
    cost := if a.provider = "plant-id" then 3/100 else 3/1000
    endpoint := "/api/v1/identify"
    createdAt := now }

/-- **C4.** The ledger written by a router call consists of exactly one row
per provider attempt — with matching `(userId, action, provider)`, the
attempt's success flag, its latency, and the error code on failure —
whenever that attempt's insert succeeds; every failed insert produces
exactly one diagnostic instead; and the router's returned result (or
error) is unchanged under any combination of insert failures. -/
theorem c4_ledger_rows_per_attempt (userId : String) (env : RouterEnv) :
    (identifyPlant userId env).ledger =
      (attemptsOf env).filterMap
        (fun a => if a.writeOk then some (rowOf userId env.now a) else none) ∧
    (identifyPlant userId env).diagnostics.length =
      ((attemptsOf env).filter (fun a => !a.writeOk)).length ∧
    ∀ b1 b2 : Bool,
      (identifyPlant userId
        { env with plantIdLogWriteOk := b1, geminiLogWriteOk := b2 }).result =
      (identifyPlant userId env).result := by
  obtain ⟨po, go, pl, gl, pw, gw, now⟩ := env
  cases po <;> cases go <;> cases pw <;> cases gw <;>
    simp [identifyPlant, logUsage, attemptsOf, rowOf]

end LeafWise

namespace LeafWise

/-! ## Response shaping (`identification.service.ts` lines 20, 90–114) -/

def LOW_CONFIDENCE_THRESHOLD : ℚ := 7/10

structure PhotoUrls where
  url : String
  thumbnailUrl : String
deriving Repr, DecidableEq

/-- The `data` part of the identify response
(`identification.service.ts` lines 28–52, 98–109). -/
structure IdentifyData where
  speciesId : Option String
  scientificName : String
  commonNames : List String
  family : String
  confidence : ℚ
  similarSpecies : List SimilarSpeciesEntry
  photo : PhotoUrls
deriving Repr, DecidableEq

/-- Lines 90–109 of `identify`: `includeSimilar = confidence <
LOW_CONFIDENCE_THRESHOLD`; `similarSpecies = includeSimilar ?
result.similarSpecies.slice(0, 5) : []`. -/
def shapeIdentifyData (speciesId : Option String)
    (result : UnifiedIdentificationResult) (photo : PhotoUrls) : IdentifyData :=
  let includeSimilar := result.species.confidence < LOW_CONFIDENCE_THRESHOLD
  { speciesId := speciesId
    scientificName := result.species.scientificName
    commonNames := result.species.commonNames
    family := result.species.family
    confidence := result.species.confidence
    similarSpecies := if includeSimilar then result.similarSpecies.take 5 else []
    photo := photo }

/-! ## Claim theorems (C7): `similarSpecies` vs the confidence threshold -/

/-- **C7, counterexample.** "`similarSpecies` is empty iff top confidence
≥ 0.70" fails on the code: a gemini result at confidence 0.55 (the gateway
never supplies alternatives) shapes to an *empty* `similarSpecies` even
though 0.55 < 0.70. -/
theorem c7_similarSpecies_iff_counterexample :
    ¬((shapeIdentifyData none
        (mapGeminiResult ⟨⟨"Monstera deliciosa", ["Monstera"], "Araceae", "Monstera",
          55/100⟩, [], true⟩) ⟨"https://cdn/a.jpg", "https://cdn/b.jpg"⟩).similarSpecies = []
      ↔ LOW_CONFIDENCE_THRESHOLD ≤
          (mapGeminiResult ⟨⟨"Monstera deliciosa", ["Monstera"], "Araceae", "Monstera",
            55/100⟩, [], true⟩).species.confidence) := by
  have h55 : (55/100 : ℚ) < 7/10 := by norm_num
  have hempty : (shapeIdentifyData none
      (mapGeminiResult ⟨⟨"Monstera deliciosa", ["Monstera"], "Araceae", "Monstera",
        55/100⟩, [], true⟩) ⟨"https://cdn/a.jpg", "https://cdn/b.jpg"⟩).similarSpecies =
      [] := by
    simp [shapeIdentifyData, mapGeminiResult, LOW_CONFIDENCE_THRESHOLD, h55]
  intro hiff
  have hge := hiff.mp hempty
  simp only [mapGeminiResult, LOW_CONFIDENCE_THRESHOLD] at hge
  norm_num at hge

/-- **C7, amended.** `similarSpecies` is empty whenever top confidence is
≥ 0.70 (in particular at exactly 0.70); when confidence is < 0.70 it is the
first 5 provider alternatives — hence empty iff the provider supplied none,
and non-empty (e.g. at 0.6999) exactly when alternatives exist; its length
never exceeds 5. -/
theorem c7_similarSpecies_amended (sid : Option String)
    (r : UnifiedIdentificationResult) (photo : PhotoUrls) :
    (LOW_CONFIDENCE_THRESHOLD ≤ r.species.confidence →
      (shapeIdentifyData sid r photo).similarSpecies = []) ∧
    (r.species.confidence < LOW_CONFIDENCE_THRESHOLD →
      (shapeIdentifyData sid r photo).similarSpecies = r.similarSpecies.take 5) ∧
    (shapeIdentifyData sid r photo).similarSpecies.length ≤ 5 ∧
    (r.species.confidence < LOW_CONFIDENCE_THRESHOLD →
      ((shapeIdentifyData sid r photo).similarSpecies = [] ↔ r.similarSpecies = [])) := by
  refine ⟨fun hge => by simp [shapeIdentifyData, not_lt.mpr hge],
    fun hlt => by simp [shapeIdentifyData, hlt], ?_, fun hlt => ?_⟩
  · by_cases h : r.species.confidence < LOW_CONFIDENCE_THRESHOLD
    · simp only [shapeIdentifyData, if_pos h]
      rw [List.length_take]
      exact min_le_left _ _
    · simp [shapeIdentifyData, h]
  · simp only [shapeIdentifyData, if_pos hlt]
    cases r.similarSpecies <;> simp

/-- **C7, witness** for the amended theorem: at confidence 0.93 the shaped
`similarSpecies` is empty; at confidence 0.6999 with one alternative it is
that alternative. -/
theorem c7_similarSpecies_amended_w :
    (shapeIdentifyData none
      (mapPlantIdResult ⟨⟨"p1", "Epipremnum aureum", ["Golden pothos"], "Araceae",
        "Epipremnum", 93/100⟩, true, 99/100,
        [⟨"Scindapsus pictus", "Satin pothos", 4/100, ""⟩]⟩)
      ⟨"https://cdn/a.jpg", "https://cdn/b.jpg"⟩).similarSpecies = [] ∧
    (shapeIdentifyData none
      (mapPlantIdResult ⟨⟨"p1", "Epipremnum aureum", ["Golden pothos"], "Araceae",
        "Epipremnum", 6999/10000⟩, true, 99/100,
        [⟨"Scindapsus pictus", "Satin pothos", 4/100, ""⟩]⟩)
      ⟨"https://cdn/a.jpg", "https://cdn/b.jpg"⟩).similarSpecies =
      [⟨"Scindapsus pictus", "Satin pothos", 4/100, ""⟩] :=
  ⟨(c7_similarSpecies_amended none
      (mapPlantIdResult ⟨⟨"p1", "Epipremnum aureum", ["Golden pothos"], "Araceae",
        "Epipremnum", 93/100⟩, true, 99/100,
        [⟨"Scindapsus pictus", "Satin pothos", 4/100, ""⟩]⟩)
      ⟨"https://cdn/a.jpg", "https://cdn/b.jpg"⟩).1
      (by rw [mapPlantIdResult]; norm_num [LOW_CONFIDENCE_THRESHOLD]),
   (c7_similarSpecies_amended none
      (mapPlantIdResult ⟨⟨"p1", "Epipremnum aureum", ["Golden pothos"], "Araceae",
        "Epipremnum", 6999/10000⟩, true, 99/100,
        [⟨"Scindapsus pictus", "Satin pothos", 4/100, ""⟩]⟩)
      ⟨"https://cdn/a.jpg", "https://cdn/b.jpg"⟩).2.1
      (by rw [mapPlantIdResult]; norm_num [LOW_CONFIDENCE_THRESHOLD])⟩

end LeafWise


namespace LeafWise

/-! ## Species resolver — the insert branch of `findOrCreateSpecies`
(`identification.service.ts` lines 276–324)

At runtime the resolver reads, off `result.species`, fields that the
unified result type does not carry (`lightRequirement`, `waterFrequency`,
`humidityLevel`, `temperature`, `difficulty`, `description`, `toxicity`,
`plantIdSpeciesId`); those property reads yield JS `undefined`.  We model
the object the resolver actually dereferences as a record of optional
fields (`SpeciesCreateInput`), and `runtimeSpeciesInput` as the object a
router result actually provides — with all of the extra fields absent. -/

structure SpeciesCreateInput where
  commonNames : Option (List String)
  family : Option String
  genus : Option String
  lightRequirement : Option String
  waterFrequency : Option String
  humidityLevel : Option String
  temperature : Option String
  difficulty : Option String
  description : Option String
  toxicity : Option String
  plantIdSpeciesId : Option String
deriving Repr, DecidableEq

/-- A `species` table row as `species.create` inserts it. -/
structure SpeciesRow where
  scientificName : String
  commonNames : List String
  family : String
  genus : String
  lightRequirement : String
  waterFrequency : String
  humidityLevel : String
  temperature : String
  difficulty : String
  description : Option String
  toxicity : Option String
  plantIdSpeciesId : Option String
deriving Repr, DecidableEq

/-- JS `arr || []`: only `undefined` is falsy — any array, even `[]`,
passes through. -/
def jsOrList (v : Option (List String)) : List String :=
  v.getD []

/-- The `data` object of the `species.create` call (lines 306–321). -/
def createSpeciesData (species : SpeciesCreateInput) (normalizedName : String) :
    SpeciesRow :=
  { scientificName := normalizedName
    commonNames := jsOrList species.commonNames
    family := jsOrStr species.family "Unknown"
    genus := jsOrStr species.genus (extractGenus normalizedName)
    lightRequirement := jsOrStr species.lightRequirement "Bright indirect light"
    waterFrequency := jsOrStr species.waterFrequency "When top inch of soil is dry"
    humidityLevel := jsOrStr species.humidityLevel "Medium"
    temperature := jsOrStr species.temperature "65-75°F (18-24°C)"
    difficulty := jsOrStr species.difficulty "moderate"
    description := species.description
    toxicity := species.toxicity
    plantIdSpeciesId := species.plantIdSpeciesId }

/-- The object `findOrCreateSpecies` receives from a router result: the
five typed fields are present, every other field read is `undefined`. -/
def runtimeSpeciesInput (s : UnifiedSpecies) : SpeciesCreateInput :=
  { commonNames := some s.commonNames
    family := some s.family
    genus := some s.genus
    lightRequirement := none
    waterFrequency := none
    humidityLevel := none
    temperature := none
    difficulty := none
    description := none
    toxicity := none
    plantIdSpeciesId := none }

/-! ## Claim theorems (C8): insert defaults -/

/-- **C8, counterexample.** "Every missing string field defaults to
`"Unknown"`" fails on the code: inserting a result whose care fields are
absent gives `lightRequirement = "Bright indirect light"`,
`waterFrequency = "When top inch of soil is dry"`, `humidityLevel =
"Medium"` and `temperature = "65-75°F (18-24°C)"` — none of them
`"Unknown"`. -/
theorem c8_insert_defaults_counterexample :
    (createSpeciesData
      (runtimeSpeciesInput ⟨"monstera deliciosa", [], "Unknown", "Unknown", 1/2⟩)
      "monstera deliciosa").lightRequirement = "Bright indirect light" ∧
    (createSpeciesData
      (runtimeSpeciesInput ⟨"monstera deliciosa", [], "Unknown", "Unknown", 1/2⟩)
      "monstera deliciosa").waterFrequency = "When top inch of soil is dry" ∧
    (createSpeciesData
      (runtimeSpeciesInput ⟨"monstera deliciosa", [], "Unknown", "Unknown", 1/2⟩)
      "monstera deliciosa").humidityLevel = "Medium" ∧
    (createSpeciesData
      (runtimeSpeciesInput ⟨"monstera deliciosa", [], "Unknown", "Unknown", 1/2⟩)
      "monstera deliciosa").temperature = "65-75°F (18-24°C)" ∧
    ("Bright indirect light" : String) ≠ "Unknown" := by
  refine ⟨rfl, rfl, rfl, rfl, by decide⟩

/-- **C8, amended.** The inserted row uses the normalized name; a missing
`family` defaults to `"Unknown"`, a missing `difficulty` to `"moderate"`,
a missing `genus` to the first whitespace-delimited token of the
normalized name, title-cased (`extractGenus`) — but the missing care
descriptors default to care-specific constants, not `"Unknown"`:
`lightRequirement` to `"Bright indirect light"`, `waterFrequency` to
`"When top inch of soil is dry"`, `humidityLevel` to `"Medium"`,
`temperature` to `"65-75°F (18-24°C)"`; `description`, `toxicity` and
`plantIdSpeciesId` pass through unmodified; and on the pipeline's actual
input every care descriptor and `difficulty` are always missing, so every
freshly inserted row carries exactly those constants. -/
theorem c8_insert_defaults_amended (inp : SpeciesCreateInput) (nn : String) :
    ((createSpeciesData inp nn).scientificName = nn ∧
     (inp.family = none → (createSpeciesData inp nn).family = "Unknown") ∧
     (inp.difficulty = none → (createSpeciesData inp nn).difficulty = "moderate") ∧
     (inp.genus = none → (createSpeciesData inp nn).genus = extractGenus nn) ∧
     (inp.lightRequirement = none →
       (createSpeciesData inp nn).lightRequirement = "Bright indirect light") ∧
     (inp.waterFrequency = none →
       (createSpeciesData inp nn).waterFrequency = "When top inch of soil is dry") ∧
     (inp.humidityLevel = none → (createSpeciesData inp nn).humidityLevel = "Medium") ∧
     (inp.temperature = none →
       (createSpeciesData inp nn).temperature = "65-75°F (18-24°C)") ∧
     (createSpeciesData inp nn).description = inp.description ∧
     (createSpeciesData inp nn).toxicity = inp.toxicity) ∧
    (∀ s : UnifiedSpecies,
      (createSpeciesData (runtimeSpeciesInput s) nn).lightRequirement =
        "Bright indirect light" ∧
      (createSpeciesData (runtimeSpeciesInput s) nn).waterFrequency =
        "When top inch of soil is dry" ∧
      (createSpeciesData (runtimeSpeciesInput s) nn).humidityLevel = "Medium" ∧
      (createSpeciesData (runtimeSpeciesInput s) nn).temperature = "65-75°F (18-24°C)" ∧
      (createSpeciesData (runtimeSpeciesInput s) nn).difficulty = "moderate") := by
  refine ⟨⟨rfl, fun h => ?_, fun h => ?_, fun h => ?_, fun h => ?_, fun h => ?_,
    fun h => ?_, fun h => ?_, rfl, rfl⟩, fun s => ⟨rfl, rfl, rfl, rfl, rfl⟩⟩ <;>
    simp [createSpeciesData, jsOrStr, h]

/-- **C8, witness** for the amended theorem at a fully-absent input and the
normalized name `"monstera deliciosa"` (genus default `"Monstera"`). -/
theorem c8_insert_defaults_amended_w :
    (createSpeciesData ⟨none, none, none, none, none, none, none, none, none, none, none⟩
      "monstera deliciosa").genus = extractGenus "monstera deliciosa" ∧
    (createSpeciesData ⟨none, none, none, none, none, none, none, none, none, none, none⟩
      "monstera deliciosa").family = "Unknown" ∧
    (createSpeciesData ⟨none, none, none, none, none, none, none, none, none, none, none⟩
      "monstera deliciosa").difficulty = "moderate" ∧
    extractGenus "monstera deliciosa" = "Monstera" :=
  ⟨(c8_insert_defaults_amended
      ⟨none, none, none, none, none, none, none, none, none, none, none⟩
      "monstera deliciosa").1.2.2.2.1 rfl,
   (c8_insert_defaults_amended
      ⟨none, none, none, none, none, none, none, none, none, none, none⟩
      "monstera deliciosa").1.2.1 rfl,
   (c8_insert_defaults_amended
      ⟨none, none, none, none, none, none, none, none, none, none, none⟩
      "monstera deliciosa").1.2.2.1 rfl,
   by decide⟩

end LeafWise

namespace LeafWise

/-! ## Photo upload and thumbnailing
(`identification.service.ts` lines 157–202) -/

/-- `generateThumbnail` (lines 185–202): run `sharp` (whose outcome we pass
in as `sharpOutcome`); on any failure, catch, warn, and return the original
base64 unchanged — no error propagates. -/
def generateThumbnail (sharpOutcome : Except String String) (imageBase64 : String) :
    String :=
  match sharpOutcome with
  | .ok thumbnailBase64 => thumbnailBase64
  | .error _ => imageBase64

/-- The observable effect of `uploadImages`: the returned URL pair and the
contents handed to `storage.uploadPhoto`, in call order. -/
structure UploadTrace where
  result : PhotoUrls
  uploadedContents : List String
deriving Repr, DecidableEq

/-- `uploadImages` (lines 157–183): upload the original, generate the
thumbnail, upload it; if either upload throws, catch and return empty
URLs. -/
def uploadImages (upload : String → Except String String)
    (sharpOutcome : Except String String) (imageBase64 : String) : UploadTrace :=
  match upload imageBase64 with
  | .error _ => ⟨⟨"", ""⟩, [imageBase64]⟩
  | .ok url =>
    let thumbnailBase64 := generateThumbnail sharpOutcome imageBase64
    match upload thumbnailBase64 with
    | .error _ => ⟨⟨"", ""⟩, [imageBase64, thumbnailBase64]⟩
    | .ok thumbnailUrl => ⟨⟨url, thumbnailUrl⟩, [imageBase64, thumbnailBase64]⟩

/-! ## Claim theorems (C10): failed thumbnail generation -/

/-- **C10.** When the image processor rejects the bytes,
`generateThumbnail` returns the original base64 unchanged instead of
propagating the error, so `uploadImages` uploads the full-size image a
second time in place of a 300×300 thumbnail and the returned
`photo.thumbnailUrl` is the URL of that full-size copy (not empty when the
storage layer returns a URL for it). -/
theorem c10_thumbnail_fallback (upload : String → Except String String)
    (imageBase64 sharpError : String) :
    generateThumbnail (.error sharpError) imageBase64 = imageBase64 ∧
    (∀ u, upload imageBase64 = .ok u →
      uploadImages upload (.error sharpError) imageBase64 = ⟨⟨u, u⟩, [imageBase64, imageBase64]⟩) := by
  refine ⟨rfl, fun u hu => ?_⟩
  simp [uploadImages, generateThumbnail, hu]

/-- **C10, witness**: with storage mapping content `c` to URL
`"https://cdn/" ++ c`, a failed `sharp` run yields the original uploaded
twice and `thumbnailUrl = url = "https://cdn/img0"`. -/
theorem c10_thumbnail_fallback_w :
    uploadImages (fun c => .ok ("https://cdn/" ++ c)) (.error "Input buffer contains unsupported image format") "img0" =
      ⟨⟨"https://cdn/img0", "https://cdn/img0"⟩, ["img0", "img0"]⟩ :=
  (c10_thumbnail_fallback (fun c => .ok ("https://cdn/" ++ c)) "img0"
    "Input buffer contains unsupported image format").2 "https://cdn/img0" rfl

end LeafWise

namespace LeafWise

/-! ## Tier-based monthly quota gate (C1)

The repository documents the per-task monthly quota (free tier:
identification 5, health 2, chat 10; premium unlimited with sentinel −1;
violations surface as `LIMIT_EXCEEDED`, HTTP 402, decided before any
provider call), but the usage service that would enforce it
(`src/modules/usage/usage.service.ts` in the tasks list) is not present
under `src/`; the identify pipeline is its planned caller.  The gate is
therefore modelled from the spec and composed with the embedded router. -/

inductive Tier
  | free
  | premium
deriving Repr, DecidableEq

/-- The semantic tasks carrying a monthly quota. -/
inductive QuotaTask
  | identification
  | health
  | chat
deriving Repr, DecidableEq

/-- Modelled from the spec: task-specific monthly caps with tier-dependent
numbers — free: identification 5, health 2, chat 10; premium: unlimited,
encoded as the sentinel −1. -/
def monthlyLimit : Tier → QuotaTask → Int
  | .premium, _ => -1
  | .free, .identification => 5
  | .free, .health => 2
  | .free, .chat => 10

/-- Modelled from the spec: the quota count is the number of
`UsageLogEntry` rows with `success = true` for that user and task whose
`createdAt` falls in the current UTC calendar month
`[monthStart, monthEnd)`. -/
def countSuccessfulInMonth (ledger : List UsageLogEntry) (userId action : String)
    (monthStart monthEnd : Nat) : Nat :=
  (ledger.filter (fun e =>
    e.userId == userId && e.action == action && e.success &&
    decide (monthStart ≤ e.createdAt) && decide (e.createdAt < monthEnd))).length

/-- The 402 `LIMIT_EXCEEDED` error body: `details` carry `feature`, `used`,
`limit`, `resetsAt`. -/
structure LimitExceededBody where
  code : String
  httpStatus : Nat
  feature : String
  used : Nat
  limit : Int
  resetsAt : Nat
deriving Repr, DecidableEq

inductive IdentifyPipelineError
  | limitExceeded (body : LimitExceededBody)
  | aiUnavailable (body : ServiceUnavailableBody)
deriving Repr, DecidableEq

/-- Everything observable about one quota-gated identify call: the
response, the resulting ledger, and which providers were invoked. -/
structure IdentifyPipelineOut where
  response : Except IdentifyPipelineError UnifiedIdentificationResult
  ledger : List UsageLogEntry
  providersInvoked : List String
deriving Repr

/-- Modelled from the spec: the identify pipeline behind the per-task
monthly quota gate.  The gate runs before any provider call: when the
tier's cap is not the unlimited sentinel and the month's successful count
has reached it, the call fails with `LIMIT_EXCEEDED` (HTTP 402, details
`used`/`limit`/`resetsAt`), no gateway is invoked and no ledger row is
written; otherwise the embedded router runs unchanged and appends its
ledger rows. -/
def identifyWithQuota (tier : Tier) (userId : String) (monthStart monthEnd : Nat)
    (ledger : List UsageLogEntry) (env : RouterEnv) : IdentifyPipelineOut :=
  let limit := monthlyLimit tier .identification
  let used := countSuccessfulInMonth ledger userId "identification" monthStart monthEnd
  if limit ≠ -1 ∧ limit ≤ (used : Int) then
    ⟨.error (.limitExceeded
        ⟨"LIMIT_EXCEEDED", 402, "identification", used, limit, monthEnd⟩),
      ledger, []⟩
  else
    let out := identifyPlant userId env
    ⟨match out.result with
      | .ok r => .ok r
      | .error e =>
        .error (.aiUnavailable ⟨"AI_UNAVAILABLE",
          "Plant identification service is temporarily unavailable",
          e.attemptedProviders⟩),
      ledger ++ out.ledger, out.attemptedProviders⟩

/-! ## Claim theorem (C1): the free-tier identification cap -/

/-- **C1.** For every identify call by a free-tier user whose count of
successful identification `UsageLogEntry` rows in the current UTC month
has reached the cap of 5, the call fails with `LIMIT_EXCEEDED` (HTTP 402,
`used = 5`, `limit = 5`), the decision precedes any provider call — no
gateway is invoked (`providersInvoked = []`) — and the ledger is
unchanged. -/
theorem c1_free_tier_monthly_cap (userId : String) (monthStart monthEnd : Nat)
    (ledger : List UsageLogEntry) (env : RouterEnv)
    (h : countSuccessfulInMonth ledger userId "identification" monthStart monthEnd = 5) :
    identifyWithQuota .free userId monthStart monthEnd ledger env =
      ⟨.error (.limitExceeded ⟨"LIMIT_EXCEEDED", 402, "identification", 5, 5, monthEnd⟩),
        ledger, []⟩ := by
  simp only [identifyWithQuota, monthlyLimit, h]
  rw [if_pos]
  exact ⟨by decide, by norm_num⟩

/-- **C1, witness**: a concrete free user with exactly 5 successful
identification rows inside the month window `[0, 2678400000)` is rejected
with `used = 5`, `limit = 5`, untouched ledger and no provider invoked. -/
theorem c1_free_tier_monthly_cap_w :
    identifyWithQuota .free "u1" 0 2678400000
      (List.map
        (fun t => { userId := "u1", action := "identification", provider := "plant-id",
                    latencyMs := 900, success := true, errorCode := none, cost := 3/100,
                    endpoint := "/api/v1/identify", createdAt := t })
        [1000, 2000, 3000, 4000, 5000])
      ⟨.ok ⟨⟨"p1", "Epipremnum aureum", ["Golden pothos"], "Araceae", "Epipremnum",
          93/100⟩, true, 99/100, []⟩,
        .error (wrapGeminiError ⟨none, none, "unused"⟩), 100, 100, true, true, 6000⟩ =
      ⟨.error (.limitExceeded ⟨"LIMIT_EXCEEDED", 402, "identification", 5, 5,
          2678400000⟩),
        List.map
          (fun t => { userId := "u1", action := "identification", provider := "plant-id",
                      latencyMs := 900, success := true, errorCode := none, cost := 3/100,
                      endpoint := "/api/v1/identify", createdAt := t })
          [1000, 2000, 3000, 4000, 5000],
        []⟩ :=
  c1_free_tier_monthly_cap "u1" 0 2678400000 _ _ (by rfl)

end LeafWise
